import Mathlib

/-!
Shallow embedding of the reconciliation core of provider-plausible.

The embedding follows the Go sources:
  * internal/clients/plausible.go   — API data types, pagination loops,
    GetSiteByDomain / GetGoal derived from the list operations, IsNotFound;
  * internal/controller/goal/goal.go — the Goal external client
    (getSiteDomain, Observe, goalMatches, Create, Update, Delete);
  * the Site external client (Observe, isUpToDate, Create, Update, Delete).

Go errors are modelled as String messages; a fallible call returns
Except String α.  `errors.Wrap(err, msg)` produces the message
"msg: err", mirroring github.com/pkg/errors.  The external-name
annotation is a String, with "" meaning "unset" exactly as the Go code
tests `meta.GetExternalName(cr) != ""`.
-/

set_option maxHeartbeats 1000000

namespace Plausible2

/-- Message produced by errors.Wrap of github.com/pkg/errors: "msg: cause". -/
def wrapErr (msg cause : String) : String := msg ++ ": " ++ cause

/-- Containment of one character list inside another, the semantics of Go
strings.Contains on the underlying text. -/
def charsContain (hay needle : List Char) : Bool :=
  if needle.isPrefixOf hay then true
  else
    match hay with
    | [] => false
    | _ :: t => charsContain t needle

/-- Go strings.Contains s substr. -/
def strContains (s substr : String) : Bool :=
  charsContain s.data substr.data

/-- IsNotFound from internal/clients/plausible.go:
`err != nil && strings.Contains(err.Error(), "status 404")`.
A Go error is modelled as Option String (none = nil error). -/
def IsNotFound : Option String → Bool
  | none => false
  | some msg => strContains msg "status 404"

/-- Site object of the Plausible API (internal/clients/plausible.go). -/
structure Site where
  id : String
  domain : String
  teamID : String
  timezone : String
  deriving Repr, DecidableEq

/-- One page of the ListSites response: the sites plus the meta.after cursor
("" when the cursor is absent, ending pagination). -/
structure SitesPage where
  sites : List Site
  metaAfter : String
  deriving Repr, DecidableEq

/-- Goal object of the Plausible API. -/
structure Goal where
  id : String
  goalType : String
  eventName : String
  pagePath : String
  deriving Repr, DecidableEq

/-- One page of the ListGoals response. -/
structure GoalsPage where
  goals : List Goal
  metaAfter : String
  deriving Repr, DecidableEq

/-- CreateGoalRequest of the client ("" models an omitted optional field,
matching the Go zero value with omitempty). -/
structure CreateGoalRequest where
  goalType : String
  eventName : String
  pagePath : String
  deriving Repr, DecidableEq

/-- CreateSiteRequest of the client. -/
structure CreateSiteRequest where
  domain : String
  teamID : String
  timezone : String
  deriving Repr, DecidableEq

/-!
Pagination.  Client.ListSites loops: issue a GET with the current `after`
cursor ("" on the first request), append the returned sites, stop when the
returned meta.after is empty, otherwise continue with the returned cursor.
The HTTP exchange is abstracted as a function from the cursor sent to the
response received; since the Go loop terminates only by the server's
contract, the embedding carries explicit fuel, and also counts the number
of requests issued.
-/

/-- Loop body of Client.ListSites.  Arguments: remaining fuel, cursor for
the next request, sites accumulated so far, requests issued so far. -/
def listSitesLoop (server : String → Except String SitesPage) :
    Nat → String → List Site → Nat → Except String (List Site × Nat)
  | 0, _, _, _ => Except.error "pagination fuel exhausted"
  | fuel + 1, after, acc, reqs =>
    match server after with
    | Except.error e => Except.error e
    | Except.ok page =>
      if page.metaAfter = "" then Except.ok (acc ++ page.sites, reqs + 1)
      else listSitesLoop server fuel page.metaAfter (acc ++ page.sites) (reqs + 1)

/-- Client.ListSites: start with an empty cursor, no sites, no requests. -/
def ListSites (server : String → Except String SitesPage) (fuel : Nat) :
    Except String (List Site × Nat) :=
  listSitesLoop server fuel "" [] 0

/-- Loop body of Client.ListGoals for a fixed site domain (the site_id query
parameter is part of the abstracted server function). -/
def listGoalsLoop (server : String → Except String GoalsPage) :
    Nat → String → List Goal → Nat → Except String (List Goal × Nat)
  | 0, _, _, _ => Except.error "pagination fuel exhausted"
  | fuel + 1, after, acc, reqs =>
    match server after with
    | Except.error e => Except.error e
    | Except.ok page =>
      if page.metaAfter = "" then Except.ok (acc ++ page.goals, reqs + 1)
      else listGoalsLoop server fuel page.metaAfter (acc ++ page.goals) (reqs + 1)

/-- Client.ListGoals. -/
def ListGoals (server : String → Except String GoalsPage) (fuel : Nat) :
    Except String (List Goal × Nat) :=
  listGoalsLoop server fuel "" [] 0

/-- Client.GetSiteByDomain: list all sites and return the first whose Domain
equals the requested domain; nil when no site matches.  The argument is the
outcome of the ListSites call. -/
def GetSiteByDomain (listResult : Except String (List Site)) (domain : String) :
    Except String (Option Site) :=
  match listResult with
  | Except.error e => Except.error e
  | Except.ok sites => Except.ok (sites.find? (fun s => s.domain = domain))

/-- Client.GetGoal: list all goals of the site and return the first whose ID
equals the requested goal ID; nil when none matches. -/
def GetGoal (listResult : Except String (List Goal)) (goalID : String) :
    Except String (Option Goal) :=
  match listResult with
  | Except.error e => Except.error e
  | Except.ok goals => Except.ok (goals.find? (fun g => g.id = goalID))

/-!
Controller layer.  A managed resource is modelled as a record holding the
external-name annotation ("" = unset), the spec.forProvider parameters, the
status.atProvider observation and the condition list.  SetConditions
replaces the condition of the same type, as crossplane-runtime does.
-/

/-- SetConditions for a single condition: drop any condition of the same
type, then append the new one. -/
def setCondition (conds : List String) (c : String) : List String :=
  conds.filter (fun x => x ≠ c) ++ [c]

/-- Result of an Observe call (managed.ExternalObservation).  The Go zero
value of ResourceUpToDate is false, used on the ResourceExists=false
returns. -/
structure ExternalObservation where
  resourceExists : Bool
  resourceUpToDate : Bool
  deriving Repr, DecidableEq

/-- GoalObservation (status.atProvider of a Goal). -/
structure GoalObservation where
  id : String
  goalType : String
  eventName : String
  pagePath : String
  deriving Repr, DecidableEq

/-- The Goal managed resource: external-name annotation, spec.forProvider
fields, status.  specSiteDomainSelector records only presence (nil or not),
since the controller never reads its contents. -/
structure GoalRecord where
  externalName : String
  specGoalType : String
  specEventName : Option String
  specPagePath : Option String
  specSiteDomain : Option String
  specSiteDomainRef : Option String
  specSiteDomainSelector : Bool
  atProvider : GoalObservation
  conditions : List String
  deriving Repr, DecidableEq

/-- Remote service surface used by the Goal controller, matching the mocks
of the repository's own tests: ListGoals keyed by site domain, CreateGoal,
DeleteGoal (returning none on success, some message on error).  GetGoal is
derived from listGoals exactly as in plausible.go. -/
structure GoalService where
  listGoals : String → Except String (List Goal)
  createGoal : String → CreateGoalRequest → Except String Goal
  deleteGoal : String → Option String

/-- Kubernetes reads of referenced Site objects: name → the Site's
spec.forProvider.domain, or an error. -/
def KubeSites : Type := String → Except String String

/-- Fallback of getSiteDomain once the direct domain is absent or empty:
resolve the reference if present (wrapping any fetch error with
errGetSite), otherwise reject a selector, otherwise fail. -/
def getSiteDomainNoDirect (kube : KubeSites) (cr : GoalRecord) :
    Except String String :=
  match cr.specSiteDomainRef with
  | some name =>
    match kube name with
    | Except.error e => Except.error (wrapErr "cannot get referenced Site" e)
    | Except.ok domain => Except.ok domain
  | none =>
    if cr.specSiteDomainSelector then
      Except.error "site domain selector is not yet implemented"
    else
      Except.error "no site domain specified"

/-- external.getSiteDomain of goal.go: the direct domain wins when present
and non-empty; otherwise reference, selector, nothing — in that order. -/
def getSiteDomain (kube : KubeSites) (cr : GoalRecord) : Except String String :=
  match cr.specSiteDomain with
  | some d => if d = "" then getSiteDomainNoDirect kube cr else Except.ok d
  | none => getSiteDomainNoDirect kube cr

/-- external.goalMatches of goal.go. -/
def goalMatches (cr : GoalRecord) (goal : Goal) : Bool :=
  if cr.specGoalType ≠ goal.goalType then false
  else
    match cr.specGoalType with
    | "event" =>
      match cr.specEventName with
      | some n => n = goal.eventName
      | none => false
    | "page" =>
      match cr.specPagePath with
      | some p => p = goal.pagePath
      | none => false
    | _ => false

/-- external.Observe of goal.go.  Returns the observation (or error) and the
possibly mutated record; every error path returns before any mutation. -/
def goalObserve (kube : KubeSites) (svc : GoalService) (cr : GoalRecord) :
    Except String ExternalObservation × GoalRecord :=
  match getSiteDomain kube cr with
  | Except.error e => (Except.error e, cr)
  | Except.ok siteDomain =>
    if cr.externalName ≠ "" then
      match GetGoal (svc.listGoals siteDomain) cr.externalName with
      | Except.error e => (Except.error (wrapErr "failed to get goal" e), cr)
      | Except.ok none => (Except.ok ⟨false, false⟩, cr)
      | Except.ok (some goal) =>
        (Except.ok ⟨true, true⟩,
         { cr with
             atProvider := ⟨goal.id, goal.goalType, goal.eventName, goal.pagePath⟩
             conditions := setCondition cr.conditions "Available" })
    else
      match svc.listGoals siteDomain with
      | Except.error e => (Except.error (wrapErr "failed to list goals" e), cr)
      | Except.ok goals =>
        match goals.find? (fun g => goalMatches cr g) with
        | some goal =>
          (Except.ok ⟨true, true⟩,
           { cr with
               externalName := goal.id
               atProvider := ⟨goal.id, goal.goalType, goal.eventName, goal.pagePath⟩
               conditions := setCondition cr.conditions "Available" })
        | none => (Except.ok ⟨false, false⟩, cr)

/-- external.Create of goal.go.  The third component records the request
passed to the remote CreateGoal call, none when the remote service was
never contacted. -/
def goalCreate (kube : KubeSites) (svc : GoalService) (cr : GoalRecord) :
    Except String Unit × GoalRecord × Option CreateGoalRequest :=
  let cr1 : GoalRecord := { cr with conditions := setCondition cr.conditions "Creating" }
  -- getSiteDomain reads only the spec fields, which the condition write
  -- above does not touch, so passing the original record is equivalent.
  match getSiteDomain kube cr with
  | Except.error e => (Except.error e, cr1, none)
  | Except.ok siteDomain =>
    let reqE : Except String CreateGoalRequest :=
      match cr.specGoalType with
      | "event" =>
        match cr.specEventName with
        | none => Except.error "event name is required for event goals"
        | some n => Except.ok ⟨cr.specGoalType, n, ""⟩
      | "page" =>
        match cr.specPagePath with
        | none => Except.error "page path is required for page goals"
        | some p => Except.ok ⟨cr.specGoalType, "", p⟩
      | _ => Except.ok ⟨cr.specGoalType, "", ""⟩
    match reqE with
    | Except.error e => (Except.error e, cr1, none)
    | Except.ok req =>
      match svc.createGoal siteDomain req with
      | Except.error e => (Except.error (wrapErr "failed to create goal" e), cr1, some req)
      | Except.ok goal => (Except.ok (), { cr1 with externalName := goal.id }, some req)

/-- external.Update of goal.go: goals cannot be updated in the Plausible
API; the body touches neither the record nor the remote service and
returns success. -/
def goalUpdate (cr : GoalRecord) : Except String Unit × GoalRecord :=
  (Except.ok (), cr)

/-- external.Delete of goal.go: delete by external name; a not-found error
is swallowed, every other error is wrapped and surfaced. -/
def goalDelete (svc : GoalService) (cr : GoalRecord) :
    Except String Unit × GoalRecord :=
  let cr := { cr with conditions := setCondition cr.conditions "Deleting" }
  match svc.deleteGoal cr.externalName with
  | none => (Except.ok (), cr)
  | some e =>
    if IsNotFound (some e) then (Except.ok (), cr)
    else (Except.error (wrapErr "failed to delete goal" e), cr)

/-- SiteObservation (status.atProvider of a Site). -/
structure SiteObservation where
  id : String
  domain : String
  teamID : String
  deriving Repr, DecidableEq

/-- The Site managed resource. -/
structure SiteRecord where
  externalName : String
  specDomain : String
  specNewDomain : Option String
  specTeamID : Option String
  specTimezone : Option String
  atProvider : SiteObservation
  conditions : List String
  deriving Repr, DecidableEq

/-- Remote service surface used by the Site controller, matching the
PlausibleService interface of the site tests.  listSites is the outcome of
the paginating ListSites call of this tick; GetSiteByDomain is derived from
it exactly as in plausible.go.  updateSite takes (siteID, newDomain) and
returns the updated site.  deleteSite returns none on success. -/
structure SiteService where
  getSite : String → Except String (Option Site)
  listSites : Except String (List Site)
  createSite : CreateSiteRequest → Except String Site
  updateSite : String → String → Except String Site
  deleteSite : String → Option String

/-- external.isUpToDate of the site controller: only a set NewDomain that
differs from the observed domain makes the record out of date; team and
timezone are never compared. -/
def siteIsUpToDate (cr : SiteRecord) (site : Site) : Bool :=
  match cr.specNewDomain with
  | some nd => if nd ≠ site.domain then false else true
  | none => true

/-- external.Observe of the site controller. -/
def siteObserve (svc : SiteService) (cr : SiteRecord) :
    Except String ExternalObservation × SiteRecord :=
  if cr.externalName ≠ "" then
    match svc.getSite cr.externalName with
    | Except.error e => (Except.error (wrapErr "failed to get site by ID" e), cr)
    | Except.ok none => (Except.ok ⟨false, false⟩, cr)
    | Except.ok (some site) =>
      (Except.ok ⟨true, siteIsUpToDate cr site⟩,
       { cr with
           atProvider := ⟨site.id, site.domain, site.teamID⟩
           conditions := setCondition (setCondition cr.conditions "Available") "ReconcileSuccess" })
  else
    match GetSiteByDomain svc.listSites cr.specDomain with
    | Except.error e => (Except.error (wrapErr "failed to get site by domain" e), cr)
    | Except.ok none => (Except.ok ⟨false, false⟩, cr)
    | Except.ok (some site) =>
      (Except.ok ⟨true, siteIsUpToDate cr site⟩,
       { cr with
           externalName := site.id
           atProvider := ⟨site.id, site.domain, site.teamID⟩
           conditions := setCondition (setCondition cr.conditions "Available") "ReconcileSuccess" })

/-- external.Create of the site controller ("" models the omitted optional
request fields). -/
def siteCreate (svc : SiteService) (cr : SiteRecord) :
    Except String Unit × SiteRecord :=
  let cr := { cr with conditions := setCondition cr.conditions "Creating" }
  let req : CreateSiteRequest :=
    { domain := cr.specDomain
      teamID := cr.specTeamID.getD ""
      timezone := cr.specTimezone.getD "" }
  match svc.createSite req with
  | Except.error e => (Except.error (wrapErr "failed to create site" e), cr)
  | Except.ok site => (Except.ok (), { cr with externalName := site.id })

/-- external.Update of the site controller: when NewDomain is set and
differs from status.atProvider.Domain, call UpdateSite with the external
name and the new domain, discarding the returned site.  The third
component records the (siteID, newDomain) arguments of the remote call,
none when no remote call was made. -/
def siteUpdate (svc : SiteService) (cr : SiteRecord) :
    Except String Unit × SiteRecord × Option (String × String) :=
  match cr.specNewDomain with
  | some nd =>
    if nd ≠ cr.atProvider.domain then
      match svc.updateSite cr.externalName nd with
      | Except.error e =>
        (Except.error (wrapErr "failed to update site domain" e), cr, some (cr.externalName, nd))
      | Except.ok _ => (Except.ok (), cr, some (cr.externalName, nd))
    else (Except.ok (), cr, none)
  | none => (Except.ok (), cr, none)

/-- external.Delete of the site controller. -/
def siteDelete (svc : SiteService) (cr : SiteRecord) :
    Except String Unit × SiteRecord :=
  let cr := { cr with conditions := setCondition cr.conditions "Deleting" }
  match svc.deleteSite cr.externalName with
  | none => (Except.ok (), cr)
  | some e =>
    if IsNotFound (some e) then (Except.ok (), cr)
    else (Except.error (wrapErr "failed to delete site" e), cr)

/-!
Theorems.
-/

/-- Containment survives prepending text, the property behind "an error
wrapping the text is still classified". -/
theorem charsContain_append_left (pre hay needle : List Char)
    (h : charsContain hay needle = true) :
    charsContain (pre ++ hay) needle = true := by
  induction pre with
  | nil => simpa using h
  | cons c t ih =>
    rw [List.cons_append]
    unfold charsContain
    by_cases hp : needle.isPrefixOf (c :: (t ++ hay))
    · simp [hp]
    · simp [hp, ih]

/-- Wrapping an error keeps every substring of the cause in the message. -/
theorem strContains_wrapErr (ctxmsg cause needle : String)
    (h : strContains cause needle = true) :
    strContains (wrapErr ctxmsg cause) needle = true := by
  unfold wrapErr strContains
  rw [String.data_append]
  exact charsContain_append_left _ _ _ h

/-- C6: IsNotFound returns true for every non-nil error whose message
contains "status 404" (in particular for any error wrapping such a cause),
and false for a nil error and for any message not containing that text
(e.g. a wrapped status-500 failure). -/
theorem C6_IsNotFound_classification :
    IsNotFound none = false ∧
    (∀ m : String, strContains m "status 404" = true → IsNotFound (some m) = true) ∧
    (∀ m : String, strContains m "status 404" = false → IsNotFound (some m) = false) ∧
    (∀ ctxmsg cause : String, strContains cause "status 404" = true →
      IsNotFound (some (wrapErr ctxmsg cause)) = true) ∧
    IsNotFound (some (wrapErr "failed to get site by ID"
      "API request failed with status 404: not found")) = true ∧
    IsNotFound (some (wrapErr "failed to get site by ID"
      "API request failed with status 500: boom")) = false := by
  refine ⟨rfl, ?_, ?_, ?_, by rfl, by rfl⟩
  · intro m h; simpa [IsNotFound] using h
  · intro m h; simpa [IsNotFound] using h
  · intro ctxmsg cause h
    simpa [IsNotFound] using strContains_wrapErr ctxmsg cause "status 404" h

/-- C6 witness: the classifier applied at concrete messages. -/
theorem C6_IsNotFound_classification_witness :
    IsNotFound (some "API request failed with status 404: gone") = true ∧
    IsNotFound (some "API request failed with status 500: boom") = false ∧
    IsNotFound (some (wrapErr "failed to delete goal" "server said status 404 here")) = true :=
  ⟨C6_IsNotFound_classification.2.1 _ (by rfl),
   C6_IsNotFound_classification.2.2.1 _ (by rfl),
   C6_IsNotFound_classification.2.2.2.1 _ _ (by rfl)⟩

/-- C3: Goal Update performs no remote call — it is a pure no-op returning
success and leaving the record untouched (its definition does not even
receive the remote service) — and every successful Goal Observe that finds
the resource reports it up to date. -/
theorem C3_goal_immutable_no_drift :
    (∀ cr : GoalRecord, goalUpdate cr = (Except.ok (), cr)) ∧
    (∀ (kube : KubeSites) (svc : GoalService) (cr : GoalRecord)
       (obs : ExternalObservation) (cr2 : GoalRecord),
      goalObserve kube svc cr = (Except.ok obs, cr2) →
      obs.resourceExists = true → obs.resourceUpToDate = true) := by
  constructor
  · intro cr; rfl
  · intro kube svc cr obs cr2 h hex
    unfold goalObserve at h
    split at h
    · simp at h
    · split at h
      · split at h
        · simp at h
        · simp at h
          obtain ⟨h1, -⟩ := h
          rw [← h1] at hex
          simp at hex
        · simp at h
          obtain ⟨h1, -⟩ := h
          rw [← h1]
      · split at h
        · simp at h
        · split at h
          · simp at h
            obtain ⟨h1, -⟩ := h
            rw [← h1]
          · simp at h
            obtain ⟨h1, -⟩ := h
            rw [← h1] at hex
            simp at hex

/-- Record used by several witnesses: an event Goal with no external name. -/
def goalRecordEx : GoalRecord :=
  { externalName := ""
    specGoalType := "event"
    specEventName := some "Signup"
    specPagePath := none
    specSiteDomain := some "example.com"
    specSiteDomainRef := none
    specSiteDomainSelector := false
    atProvider := ⟨"", "", "", ""⟩
    conditions := [] }

/-- Service used by several witnesses: one remote goal "goal-123". -/
def goalServiceEx : GoalService :=
  { listGoals := fun _ => Except.ok [⟨"goal-123", "event", "Signup", ""⟩]
    createGoal := fun _ req => Except.ok ⟨"goal-9", req.goalType, req.eventName, req.pagePath⟩
    deleteGoal := fun _ => none }

/-- Kube store used by several witnesses: every Site name resolves to
domain "example.com". -/
def kubeEx : KubeSites := fun _ => Except.ok "example.com"

/-- C3 witness: the discovery Observe of a matching event goal reports up
to date. -/
theorem C3_goal_immutable_no_drift_witness :
    goalUpdate goalRecordEx = (Except.ok (), goalRecordEx) ∧
    (⟨true, true⟩ : ExternalObservation).resourceUpToDate = true :=
  ⟨C3_goal_immutable_no_drift.1 goalRecordEx,
   C3_goal_immutable_no_drift.2 kubeEx goalServiceEx goalRecordEx ⟨true, true⟩
     { goalRecordEx with
         externalName := "goal-123"
         atProvider := ⟨"goal-123", "event", "Signup", ""⟩
         conditions := setCondition goalRecordEx.conditions "Available" }
     (by rfl) (by rfl)⟩

/-- C4: for both Sites and Goals, Delete swallows a not-found-classified
remote error and returns success; any other remote error is surfaced
(wrapped). -/
theorem C4_idempotent_delete :
    (∀ (svc : GoalService) (cr : GoalRecord) (e : String),
      svc.deleteGoal cr.externalName = some e → IsNotFound (some e) = true →
      (goalDelete svc cr).1 = Except.ok ()) ∧
    (∀ (svc : GoalService) (cr : GoalRecord) (e : String),
      svc.deleteGoal cr.externalName = some e → IsNotFound (some e) = false →
      (goalDelete svc cr).1 = Except.error (wrapErr "failed to delete goal" e)) ∧
    (∀ (svc : SiteService) (cr : SiteRecord) (e : String),
      svc.deleteSite cr.externalName = some e → IsNotFound (some e) = true →
      (siteDelete svc cr).1 = Except.ok ()) ∧
    (∀ (svc : SiteService) (cr : SiteRecord) (e : String),
      svc.deleteSite cr.externalName = some e → IsNotFound (some e) = false →
      (siteDelete svc cr).1 = Except.error (wrapErr "failed to delete site" e)) := by
  refine ⟨?_, ?_, ?_, ?_⟩ <;>
    · intro svc cr e hdel hnf
      simp only [goalDelete, siteDelete, hdel, hnf]
      simp

/-- Record used by the site-side witnesses. -/
def siteRecordEx : SiteRecord :=
  { externalName := "example.com"
    specDomain := "example.com"
    specNewDomain := none
    specTeamID := none
    specTimezone := none
    atProvider := ⟨"example.com", "example.com", ""⟩
    conditions := [] }

/-- Goal service whose delete reports a wrapped 404. -/
def goalService404 : GoalService :=
  { goalServiceEx with deleteGoal := fun _ => some "API request failed with status 404: gone" }

/-- Goal service whose delete reports a wrapped 500. -/
def goalService500 : GoalService :=
  { goalServiceEx with deleteGoal := fun _ => some "API request failed with status 500: boom" }

/-- Site service for witnesses; delete reports a wrapped 404. -/
def siteService404 : SiteService :=
  { getSite := fun _ => Except.ok (some ⟨"example.com", "example.com", "", "UTC"⟩)
    listSites := Except.ok [⟨"example.com", "example.com", "", "UTC"⟩]
    createSite := fun req => Except.ok ⟨req.domain, req.domain, req.teamID, req.timezone⟩
    updateSite := fun _ nd => Except.ok ⟨"example.com", nd, "", "UTC"⟩
    deleteSite := fun _ => some "API request failed with status 404: gone" }

/-- Site service whose delete reports a wrapped 500. -/
def siteService500 : SiteService :=
  { siteService404 with deleteSite := fun _ => some "API request failed with status 500: boom" }

/-- C4 witness: a 404 delete answer yields success, a 500 one an error, for
both kinds. -/
theorem C4_idempotent_delete_witness :
    (goalDelete goalService404 goalRecordEx).1 = Except.ok () ∧
    (goalDelete goalService500 goalRecordEx).1 =
      Except.error (wrapErr "failed to delete goal" "API request failed with status 500: boom") ∧
    (siteDelete siteService404 siteRecordEx).1 = Except.ok () ∧
    (siteDelete siteService500 siteRecordEx).1 =
      Except.error (wrapErr "failed to delete site" "API request failed with status 500: boom") :=
  ⟨C4_idempotent_delete.1 goalService404 goalRecordEx _ (by rfl) (by rfl),
   C4_idempotent_delete.2.1 goalService500 goalRecordEx _ (by rfl) (by rfl),
   C4_idempotent_delete.2.2.1 siteService404 siteRecordEx _ (by rfl) (by rfl),
   C4_idempotent_delete.2.2.2 siteService500 siteRecordEx _ (by rfl) (by rfl)⟩

/-- C8: getSiteDomain follows the three mutually-exclusive rules in order:
a present non-empty direct value wins with no lookup regardless of the
other fields; otherwise a reference is resolved to the referenced Site's
domain with fetch failures wrapped and surfaced; otherwise a selector
fails as unsupported; otherwise "no site domain specified". -/
theorem C8_getSiteDomain_resolution :
    (∀ (kube : KubeSites) (cr : GoalRecord) (d : String),
      cr.specSiteDomain = some d → d ≠ "" →
      getSiteDomain kube cr = Except.ok d) ∧
    (∀ (kube : KubeSites) (cr : GoalRecord) (name dom : String),
      (cr.specSiteDomain = none ∨ cr.specSiteDomain = some "") →
      cr.specSiteDomainRef = some name → kube name = Except.ok dom →
      getSiteDomain kube cr = Except.ok dom) ∧
    (∀ (kube : KubeSites) (cr : GoalRecord) (name e : String),
      (cr.specSiteDomain = none ∨ cr.specSiteDomain = some "") →
      cr.specSiteDomainRef = some name → kube name = Except.error e →
      getSiteDomain kube cr = Except.error (wrapErr "cannot get referenced Site" e)) ∧
    (∀ (kube : KubeSites) (cr : GoalRecord),
      (cr.specSiteDomain = none ∨ cr.specSiteDomain = some "") →
      cr.specSiteDomainRef = none → cr.specSiteDomainSelector = true →
      getSiteDomain kube cr = Except.error "site domain selector is not yet implemented") ∧
    (∀ (kube : KubeSites) (cr : GoalRecord),
      (cr.specSiteDomain = none ∨ cr.specSiteDomain = some "") →
      cr.specSiteDomainRef = none → cr.specSiteDomainSelector = false →
      getSiteDomain kube cr = Except.error "no site domain specified") := by
  refine ⟨?_, ?_, ?_, ?_, ?_⟩
  · intro kube cr d hd hne
    simp [getSiteDomain, hd, hne]
  · intro kube cr name dom hdir href hk
    rcases hdir with h | h <;>
      simp [getSiteDomain, getSiteDomainNoDirect, h, href, hk]
  · intro kube cr name e hdir href hk
    rcases hdir with h | h <;>
      simp [getSiteDomain, getSiteDomainNoDirect, h, href, hk]
  · intro kube cr hdir href hsel
    rcases hdir with h | h <;>
      simp [getSiteDomain, getSiteDomainNoDirect, h, href, hsel]
  · intro kube cr hdir href hsel
    rcases hdir with h | h <;>
      simp [getSiteDomain, getSiteDomainNoDirect, h, href, hsel]

/-- Goal record with only a reference to Site "my-site". -/
def goalRecordRefOnly : GoalRecord :=
  { goalRecordEx with specSiteDomain := none, specSiteDomainRef := some "my-site" }

/-- Goal record with only a selector. -/
def goalRecordSelOnly : GoalRecord :=
  { goalRecordEx with specSiteDomain := none, specSiteDomainSelector := true }

/-- Goal record with no site dependency at all. -/
def goalRecordNoDep : GoalRecord :=
  { goalRecordEx with specSiteDomain := none }

/-- Kube store whose reads always fail. -/
def kubeFailing : KubeSites := fun _ => Except.error "sites.plausible.io \x22my-site\x22 not found"

/-- C8 witness: all five resolution rules at concrete records. -/
theorem C8_getSiteDomain_resolution_witness :
    getSiteDomain kubeEx goalRecordEx = Except.ok "example.com" ∧
    getSiteDomain kubeEx goalRecordRefOnly = Except.ok "example.com" ∧
    getSiteDomain kubeFailing goalRecordRefOnly =
      Except.error (wrapErr "cannot get referenced Site" "sites.plausible.io \x22my-site\x22 not found") ∧
    getSiteDomain kubeEx goalRecordSelOnly =
      Except.error "site domain selector is not yet implemented" ∧
    getSiteDomain kubeEx goalRecordNoDep = Except.error "no site domain specified" :=
  ⟨C8_getSiteDomain_resolution.1 kubeEx goalRecordEx "example.com" (by rfl) (by decide),
   C8_getSiteDomain_resolution.2.1 kubeEx goalRecordRefOnly "my-site" "example.com"
     (Or.inl (by rfl)) (by rfl) (by rfl),
   C8_getSiteDomain_resolution.2.2.1 kubeFailing goalRecordRefOnly "my-site" _
     (Or.inl (by rfl)) (by rfl) (by rfl),
   C8_getSiteDomain_resolution.2.2.2.1 kubeEx goalRecordSelOnly
     (Or.inl (by rfl)) (by rfl) (by rfl),
   C8_getSiteDomain_resolution.2.2.2.2 kubeEx goalRecordNoDep
     (Or.inl (by rfl)) (by rfl) (by rfl)⟩

/-- C9: Create on an event-kind Goal with no event name, or a page-kind
Goal with no page path, never contacts the remote create endpoint (the
recorded request is none) and returns an error; when site-domain
resolution succeeds the error is exactly the kind-specific validation
message. -/
theorem C9_create_validation :
    ∀ (kube : KubeSites) (svc : GoalService) (cr : GoalRecord),
      (cr.specGoalType = "event" ∧ cr.specEventName = none) ∨
      (cr.specGoalType = "page" ∧ cr.specPagePath = none) →
      (goalCreate kube svc cr).2.2 = none ∧
      (∃ e, (goalCreate kube svc cr).1 = Except.error e) ∧
      (∀ d : String, getSiteDomain kube cr = Except.ok d →
        (goalCreate kube svc cr).1 =
          Except.error (if cr.specGoalType = "event"
                        then "event name is required for event goals"
                        else "page path is required for page goals")) := by
  intro kube svc cr h
  cases hd : getSiteDomain kube cr with
  | error e =>
    rcases h with ⟨ht, hf⟩ | ⟨ht, hf⟩ <;>
      exact ⟨by simp [goalCreate, hd, ht, hf], ⟨e, by simp [goalCreate, hd, ht, hf]⟩,
             fun d hdd => Except.noConfusion hdd⟩
  | ok d =>
    rcases h with ⟨ht, hf⟩ | ⟨ht, hf⟩
    · exact ⟨by simp [goalCreate, hd, ht, hf],
             ⟨"event name is required for event goals", by simp [goalCreate, hd, ht, hf]⟩,
             fun d2 hdd => by simp [goalCreate, hd, ht, hf]⟩
    · exact ⟨by simp [goalCreate, hd, ht, hf],
             ⟨"page path is required for page goals", by simp [goalCreate, hd, ht, hf]⟩,
             fun d2 hdd => by simp [goalCreate, hd, ht, hf]⟩

/-- Event-kind record with the event name missing. -/
def goalRecordNoEventName : GoalRecord := { goalRecordEx with specEventName := none }

/-- C9 witness: Create on an event Goal with no event name records no
remote request and fails with the validation message. -/
theorem C9_create_validation_witness :
    (goalCreate kubeEx goalServiceEx goalRecordNoEventName).2.2 = none ∧
    (goalCreate kubeEx goalServiceEx goalRecordNoEventName).1 =
      Except.error "event name is required for event goals" := by
  obtain ⟨h1, -, h3⟩ :=
    C9_create_validation kubeEx goalServiceEx goalRecordNoEventName (Or.inl ⟨rfl, rfl⟩)
  exact ⟨h1, by simpa using h3 "example.com" (by rfl)⟩

/-- C10: a Goal whose spec kind is neither "event" nor "page" matches no
remote goal, so a discovery Observe (no external name) over any
successfully listed collection reports the resource missing and leaves the
record — in particular its external name — unchanged. -/
theorem C10_unknown_kind_never_matches :
    (∀ (cr : GoalRecord) (g : Goal),
      cr.specGoalType ≠ "event" → cr.specGoalType ≠ "page" →
      goalMatches cr g = false) ∧
    (∀ (kube : KubeSites) (svc : GoalService) (cr : GoalRecord)
       (d : String) (goals : List Goal),
      cr.specGoalType ≠ "event" → cr.specGoalType ≠ "page" →
      cr.externalName = "" →
      getSiteDomain kube cr = Except.ok d →
      svc.listGoals d = Except.ok goals →
      goalObserve kube svc cr = (Except.ok ⟨false, false⟩, cr)) := by
  have hm : ∀ (cr : GoalRecord) (g : Goal),
      cr.specGoalType ≠ "event" → cr.specGoalType ≠ "page" →
      goalMatches cr g = false := by
    intro cr g ht hp
    unfold goalMatches
    by_cases heq : cr.specGoalType = g.goalType
    · simp [heq] at ht hp ⊢
      split
      · rename_i hev; exact absurd hev ht
      · rename_i hpg; exact absurd hpg hp
      · rfl
    · simp [heq]
  refine ⟨hm, ?_⟩
  intro kube svc cr d goals ht hp hext hd hl
  have hfind : goals.find? (fun g => goalMatches cr g) = none := by
    rw [List.find?_eq_none]
    intro g hg
    simp [hm cr g ht hp]
  unfold goalObserve
  rw [hd]
  simp [hext, hl, hfind]

/-- Record of an unsupported goal kind, with no external name. -/
def goalRecordCustomKind : GoalRecord :=
  { goalRecordEx with specGoalType := "custom_metric", specEventName := some "Signup" }

/-- C10 witness: the custom-kind record matches nothing and its discovery
Observe reports missing against a non-empty remote collection. -/
theorem C10_unknown_kind_never_matches_witness :
    goalMatches goalRecordCustomKind ⟨"goal-123", "custom_metric", "Signup", ""⟩ = false ∧
    goalObserve kubeEx goalServiceEx goalRecordCustomKind =
      (Except.ok ⟨false, false⟩, goalRecordCustomKind) :=
  ⟨C10_unknown_kind_never_matches.1 goalRecordCustomKind _ (by decide) (by decide),
   C10_unknown_kind_never_matches.2 kubeEx goalServiceEx goalRecordCustomKind
     "example.com" [⟨"goal-123", "event", "Signup", ""⟩]
     (by decide) (by decide) (by rfl) (by rfl) (by rfl)⟩

/-- C1: Observe decides existence as prescribed.  With an external name
set, a not-found answer from the get-by-identity call yields
ResourceExists=false with no error (Sites and Goals).  With no external
name, Observe searches the listed remote collection for a natural-key
match — domain for Sites, the goalMatches key (kind, event name / page
path) for Goals: a match sets the external name to the matched object's ID
and yields ResourceExists=true, no match yields ResourceExists=false. -/
theorem C1_observe_existence :
    (∀ (svc : SiteService) (cr : SiteRecord),
      cr.externalName ≠ "" → svc.getSite cr.externalName = Except.ok none →
      siteObserve svc cr = (Except.ok ⟨false, false⟩, cr)) ∧
    (∀ (svc : SiteService) (cr : SiteRecord) (sites : List Site),
      cr.externalName = "" → svc.listSites = Except.ok sites →
      (∀ s : Site, sites.find? (fun s2 => s2.domain = cr.specDomain) = some s →
        ∃ (obs : ExternalObservation) (cr2 : SiteRecord),
          siteObserve svc cr = (Except.ok obs, cr2) ∧
          obs.resourceExists = true ∧ cr2.externalName = s.id) ∧
      (sites.find? (fun s2 => s2.domain = cr.specDomain) = none →
        siteObserve svc cr = (Except.ok ⟨false, false⟩, cr))) ∧
    (∀ (kube : KubeSites) (svc : GoalService) (cr : GoalRecord) (d : String),
      cr.externalName ≠ "" → getSiteDomain kube cr = Except.ok d →
      GetGoal (svc.listGoals d) cr.externalName = Except.ok none →
      goalObserve kube svc cr = (Except.ok ⟨false, false⟩, cr)) ∧
    (∀ (kube : KubeSites) (svc : GoalService) (cr : GoalRecord)
       (d : String) (goals : List Goal),
      cr.externalName = "" → getSiteDomain kube cr = Except.ok d →
      svc.listGoals d = Except.ok goals →
      (∀ g : Goal, goals.find? (fun g2 => goalMatches cr g2) = some g →
        ∃ (obs : ExternalObservation) (cr2 : GoalRecord),
          goalObserve kube svc cr = (Except.ok obs, cr2) ∧
          obs.resourceExists = true ∧ cr2.externalName = g.id) ∧
      (goals.find? (fun g2 => goalMatches cr g2) = none →
        goalObserve kube svc cr = (Except.ok ⟨false, false⟩, cr))) := by
  refine ⟨?_, ?_, ?_, ?_⟩
  · intro svc cr hext hget
    unfold siteObserve
    simp [hext, hget]
  · intro svc cr sites hext hl
    constructor
    · intro s hfind
      refine ⟨⟨true, siteIsUpToDate cr s⟩,
              { cr with
                  externalName := s.id
                  atProvider := ⟨s.id, s.domain, s.teamID⟩
                  conditions := setCondition (setCondition cr.conditions "Available") "ReconcileSuccess" },
              ?_, rfl, rfl⟩
      unfold siteObserve
      simp [hext, GetSiteByDomain, hl, hfind]
    · intro hfind
      unfold siteObserve
      simp [hext, GetSiteByDomain, hl, hfind]
  · intro kube svc cr d hext hd hget
    unfold goalObserve
    rw [hd]
    simp [hext, hget]
  · intro kube svc cr d goals hext hd hl
    constructor
    · intro g hfind
      refine ⟨⟨true, true⟩,
              { cr with
                  externalName := g.id
                  atProvider := ⟨g.id, g.goalType, g.eventName, g.pagePath⟩
                  conditions := setCondition cr.conditions "Available" },
              ?_, rfl, rfl⟩
      unfold goalObserve
      rw [hd]
      simp [hext, hl, hfind]
    · intro hfind
      unfold goalObserve
      rw [hd]
      simp [hext, hl, hfind]

/-- Site service whose get-by-identity reports not found. -/
def siteServiceGone : SiteService :=
  { siteService404 with getSite := fun _ => Except.ok none }

/-- Site service with an empty remote collection. -/
def siteServiceEmpty : SiteService :=
  { siteService404 with listSites := Except.ok [] }

/-- Site record with no external name. -/
def siteRecordNoName : SiteRecord := { siteRecordEx with externalName := "" }

/-- Goal record whose external name has no remote counterpart. -/
def goalRecordStaleName : GoalRecord := { goalRecordEx with externalName := "goal-999" }

/-- Goal service with an empty remote collection. -/
def goalServiceEmpty : GoalService :=
  { goalServiceEx with listGoals := fun _ => Except.ok [] }

/-- C1 witness: all four existence behaviours at concrete inputs. -/
theorem C1_observe_existence_witness :
    siteObserve siteServiceGone siteRecordEx = (Except.ok ⟨false, false⟩, siteRecordEx) ∧
    (∃ (obs : ExternalObservation) (cr2 : SiteRecord),
      siteObserve siteService404 siteRecordNoName = (Except.ok obs, cr2) ∧
      obs.resourceExists = true ∧ cr2.externalName = "example.com") ∧
    siteObserve siteServiceEmpty siteRecordNoName = (Except.ok ⟨false, false⟩, siteRecordNoName) ∧
    goalObserve kubeEx goalServiceEx goalRecordStaleName =
      (Except.ok ⟨false, false⟩, goalRecordStaleName) ∧
    (∃ (obs : ExternalObservation) (cr2 : GoalRecord),
      goalObserve kubeEx goalServiceEx goalRecordEx = (Except.ok obs, cr2) ∧
      obs.resourceExists = true ∧ cr2.externalName = "goal-123") ∧
    goalObserve kubeEx goalServiceEmpty goalRecordEx =
      (Except.ok ⟨false, false⟩, goalRecordEx) :=
  ⟨C1_observe_existence.1 siteServiceGone siteRecordEx (by decide) (by rfl),
   (C1_observe_existence.2.1 siteService404 siteRecordNoName
      [⟨"example.com", "example.com", "", "UTC"⟩] (by rfl) (by rfl)).1
     ⟨"example.com", "example.com", "", "UTC"⟩ (by rfl),
   (C1_observe_existence.2.1 siteServiceEmpty siteRecordNoName [] (by rfl) (by rfl)).2 (by rfl),
   C1_observe_existence.2.2.1 kubeEx goalServiceEx goalRecordStaleName "example.com"
     (by decide) (by rfl) (by rfl),
   (C1_observe_existence.2.2.2 kubeEx goalServiceEx goalRecordEx "example.com"
      [⟨"goal-123", "event", "Signup", ""⟩] (by rfl) (by rfl) (by rfl)).1
     ⟨"goal-123", "event", "Signup", ""⟩ (by rfl),
   (C1_observe_existence.2.2.2 kubeEx goalServiceEmpty goalRecordEx "example.com"
      [] (by rfl) (by rfl) (by rfl)).2 (by rfl)⟩

/-- C7: an Observe that returns an error leaves the record — in particular
status.atProvider — exactly as it was: atProvider is written only on the
fully successful paths, for Sites and Goals alike. -/
theorem C7_atProvider_only_on_success :
    (∀ (svc : SiteService) (cr : SiteRecord) (e : String),
      (siteObserve svc cr).1 = Except.error e →
      ((siteObserve svc cr).2).atProvider = cr.atProvider ∧
      (siteObserve svc cr).2 = cr) ∧
    (∀ (kube : KubeSites) (svc : GoalService) (cr : GoalRecord) (e : String),
      (goalObserve kube svc cr).1 = Except.error e →
      ((goalObserve kube svc cr).2).atProvider = cr.atProvider ∧
      (goalObserve kube svc cr).2 = cr) := by
  constructor
  · intro svc cr e h
    have hrec : (siteObserve svc cr).2 = cr := by
      by_cases hn : cr.externalName = ""
      · cases hl : GetSiteByDomain svc.listSites cr.specDomain with
        | error e2 => simp [siteObserve, hn, hl]
        | ok o =>
          cases o with
          | none => exfalso; simp [siteObserve, hn, hl] at h
          | some site => exfalso; simp [siteObserve, hn, hl] at h
      · cases hg : svc.getSite cr.externalName with
        | error e2 => simp [siteObserve, hn, hg]
        | ok o =>
          cases o with
          | none => exfalso; simp [siteObserve, hn, hg] at h
          | some site => exfalso; simp [siteObserve, hn, hg] at h
    exact ⟨by rw [hrec], hrec⟩
  · intro kube svc cr e h
    have hrec : (goalObserve kube svc cr).2 = cr := by
      cases hd : getSiteDomain kube cr with
      | error e2 => simp [goalObserve, hd]
      | ok d =>
        by_cases hn : cr.externalName = ""
        · cases hl : svc.listGoals d with
          | error e2 => simp [goalObserve, hd, hn, hl]
          | ok goals =>
            cases hf : goals.find? (fun g => goalMatches cr g) with
            | none => simp [goalObserve, hd, hn, hl, hf]
            | some g => exfalso; simp [goalObserve, hd, hn, hl, hf] at h
        · cases hg : GetGoal (svc.listGoals d) cr.externalName with
          | error e2 => simp [goalObserve, hd, hn, hg]
          | ok o =>
            cases o with
            | none => simp [goalObserve, hd, hn, hg]
            | some g => exfalso; simp [goalObserve, hd, hn, hg] at h
    exact ⟨by rw [hrec], hrec⟩

/-- Site service whose get-by-identity fails with a server error. -/
def siteServiceBoom : SiteService :=
  { siteService404 with getSite := fun _ => Except.error "API request failed with status 500: boom" }

/-- C7 witness: failing Observe calls leave the concrete records intact. -/
theorem C7_atProvider_only_on_success_witness :
    ((siteObserve siteServiceBoom siteRecordEx).2).atProvider = siteRecordEx.atProvider ∧
    ((goalObserve kubeFailing goalServiceEx goalRecordRefOnly).2).atProvider =
      goalRecordRefOnly.atProvider :=
  ⟨(C7_atProvider_only_on_success.1 siteServiceBoom siteRecordEx
      (wrapErr "failed to get site by ID" "API request failed with status 500: boom") (by rfl)).1,
   (C7_atProvider_only_on_success.2 kubeFailing goalServiceEx goalRecordRefOnly
      (wrapErr "cannot get referenced Site" "sites.plausible.io \x22my-site\x22 not found") (by rfl)).1⟩

/-- Site record mid-rename: external name and observed domain still the
old domain, spec.newDomain the new one. -/
def siteRecordRename : SiteRecord :=
  { externalName := "old.example.com"
    specDomain := "old.example.com"
    specNewDomain := some "new.example.com"
    specTeamID := none
    specTimezone := none
    atProvider := ⟨"old.example.com", "old.example.com", ""⟩
    conditions := [] }

/-- Site service whose rename call succeeds and returns the renamed site. -/
def siteServiceRename : SiteService :=
  { getSite := fun _ => Except.ok (some ⟨"old.example.com", "new.example.com", "", "UTC"⟩)
    listSites := Except.ok []
    createSite := fun req => Except.ok ⟨req.domain, req.domain, req.teamID, req.timezone⟩
    updateSite := fun _ nd => Except.ok ⟨"old.example.com", nd, "", "UTC"⟩
    deleteSite := fun _ => none }

/-- C2 counterexample: Update issues the rename call with the new domain
and succeeds, yet the record's external identity still holds the old
value, not the new domain — refuting "after the rename the new domain
becomes the identity-correlated key of the record going forward". -/
theorem C2_rename_counterexample :
    (siteUpdate siteServiceRename siteRecordRename).1 = Except.ok () ∧
    (siteUpdate siteServiceRename siteRecordRename).2.2 =
      some ("old.example.com", "new.example.com") ∧
    ((siteUpdate siteServiceRename siteRecordRename).2.1).externalName ≠ "new.example.com" :=
  ⟨rfl, rfl, by decide⟩

/-- C2 (amended): a Site is reported not up to date exactly when
spec.newDomain is set and differs from the observed remote domain, and
Observe-by-identity reports exactly that comparison; when new domain
differs from status.atProvider.domain, Update issues the rename call with
the stored external name and the new domain; Update always leaves the
record — including its external identity, which keeps the previously
stored site ID — unchanged. -/
theorem C2_site_rename_drift :
    (∀ (cr : SiteRecord) (site : Site),
      siteIsUpToDate cr site = false ↔
        ∃ nd, cr.specNewDomain = some nd ∧ nd ≠ site.domain) ∧
    (∀ (svc : SiteService) (cr : SiteRecord) (site : Site),
      cr.externalName ≠ "" → svc.getSite cr.externalName = Except.ok (some site) →
      (siteObserve svc cr).1 = Except.ok ⟨true, siteIsUpToDate cr site⟩) ∧
    (∀ (svc : SiteService) (cr : SiteRecord) (nd : String),
      cr.specNewDomain = some nd → nd ≠ cr.atProvider.domain →
      (siteUpdate svc cr).2.2 = some (cr.externalName, nd)) ∧
    (∀ (svc : SiteService) (cr : SiteRecord),
      (siteUpdate svc cr).2.1 = cr) := by
  refine ⟨?_, ?_, ?_, ?_⟩
  · intro cr site
    unfold siteIsUpToDate
    cases h : cr.specNewDomain with
    | none => simp
    | some nd =>
      by_cases he : nd = site.domain
      · simp [he]
      · simp [he]
  · intro svc cr site hext hget
    unfold siteObserve
    simp [hext, hget]
  · intro svc cr nd hnd hne
    unfold siteUpdate
    rw [hnd]
    cases hu : svc.updateSite cr.externalName nd with
    | error e => simp [hne, hu]
    | ok s => simp [hne, hu]
  · intro svc cr
    unfold siteUpdate
    cases h : cr.specNewDomain with
    | none => simp
    | some nd =>
      by_cases he : nd = cr.atProvider.domain
      · simp [he]
      · cases hu : svc.updateSite cr.externalName nd with
        | error e => simp [he, hu]
        | ok s => simp [he, hu]

/-- C2 witness: the amended behaviour at the concrete rename scenario. -/
theorem C2_site_rename_drift_witness :
    siteIsUpToDate siteRecordRename ⟨"old.example.com", "old.example.com", "", "UTC"⟩ = false ∧
    (siteObserve siteServiceRename siteRecordRename).1 =
      Except.ok ⟨true, siteIsUpToDate siteRecordRename
        ⟨"old.example.com", "new.example.com", "", "UTC"⟩⟩ ∧
    (siteUpdate siteServiceRename siteRecordRename).2.2 =
      some ("old.example.com", "new.example.com") ∧
    (siteUpdate siteServiceRename siteRecordRename).2.1 = siteRecordRename :=
  ⟨(C2_site_rename_drift.1 siteRecordRename _).mpr ⟨"new.example.com", rfl, by decide⟩,
   C2_site_rename_drift.2.1 siteServiceRename siteRecordRename _ (by decide) (by rfl),
   C2_site_rename_drift.2.2.1 siteServiceRename siteRecordRename "new.example.com"
     rfl (by decide),
   C2_site_rename_drift.2.2.2 siteServiceRename siteRecordRename⟩

/-- Invariant of the ListSites loop over a server that answers request i
(cursor c i, with c 0 the empty initial cursor) with exactly the one site
x i and a cursor that is empty exactly on the last page. -/
theorem listSitesLoop_pages (server : String → Except String SitesPage)
    (N : Nat) (c : Nat → String) (x : Nat → Site)
    (H1 : ∀ i, i < N → server (if i = 0 then "" else c i) =
        Except.ok ⟨[x i], if i + 1 = N then "" else c (i + 1)⟩)
    (H2 : ∀ i, 0 < i → i < N → c i ≠ "") :
    ∀ (fuel k : Nat) (acc : List Site) (reqs : Nat), k < N → N - k ≤ fuel →
      listSitesLoop server fuel (if k = 0 then "" else c k) acc reqs =
        Except.ok (acc ++ (List.range' k (N - k)).map x, reqs + (N - k)) := by
  intro fuel
  induction fuel with
  | zero =>
    intro k acc reqs hk hf
    exact absurd hf (by omega)
  | succ fuel ih =>
    intro k acc reqs hk hf
    unfold listSitesLoop
    rw [H1 k hk]
    by_cases hkN : k + 1 = N
    · have hN : N - k = 1 := by omega
      simp [hkN, hN]
    · have hc : c (k + 1) ≠ "" := H2 (k + 1) (by omega) (by omega)
      have hstep := ih (k + 1) (acc ++ [x k]) (reqs + 1) (by omega) (by omega)
      rw [if_neg (by omega)] at hstep
      simp only [hkN, if_false, hc, ite_false]
      rw [hstep]
      have hr : N - k = (N - (k + 1)) + 1 := by omega
      rw [hr, List.range'_succ]
      simp [List.append_assoc]
      omega

/-- Invariant of the ListGoals loop, identical in shape to the sites one. -/
theorem listGoalsLoop_pages (server : String → Except String GoalsPage)
    (N : Nat) (c : Nat → String) (x : Nat → Goal)
    (H1 : ∀ i, i < N → server (if i = 0 then "" else c i) =
        Except.ok ⟨[x i], if i + 1 = N then "" else c (i + 1)⟩)
    (H2 : ∀ i, 0 < i → i < N → c i ≠ "") :
    ∀ (fuel k : Nat) (acc : List Goal) (reqs : Nat), k < N → N - k ≤ fuel →
      listGoalsLoop server fuel (if k = 0 then "" else c k) acc reqs =
        Except.ok (acc ++ (List.range' k (N - k)).map x, reqs + (N - k)) := by
  intro fuel
  induction fuel with
  | zero =>
    intro k acc reqs hk hf
    exact absurd hf (by omega)
  | succ fuel ih =>
    intro k acc reqs hk hf
    unfold listGoalsLoop
    rw [H1 k hk]
    by_cases hkN : k + 1 = N
    · have hN : N - k = 1 := by omega
      simp [hkN, hN]
    · have hc : c (k + 1) ≠ "" := H2 (k + 1) (by omega) (by omega)
      have hstep := ih (k + 1) (acc ++ [x k]) (reqs + 1) (by omega) (by omega)
      rw [if_neg (by omega)] at hstep
      simp only [hkN, if_false, hc, ite_false]
      rw [hstep]
      have hr : N - k = (N - (k + 1)) + 1 := by omega
      rw [hr, List.range'_succ]
      simp [List.append_assoc]
      omega

/-- C5: against a server returning N ≥ 1 pages of one item each, with a
non-empty meta.after cursor on every page but the last and an empty one on
the last, ListSites and ListGoals return the N items concatenated in page
order after issuing exactly N requests (any fuel ≥ N suffices, so the
request count is the loop's own termination point). -/
theorem C5_pagination_completeness :
    (∀ (server : String → Except String SitesPage) (N fuel : Nat)
       (c : Nat → String) (x : Nat → Site),
      1 ≤ N → N ≤ fuel →
      (∀ i, i < N → server (if i = 0 then "" else c i) =
          Except.ok ⟨[x i], if i + 1 = N then "" else c (i + 1)⟩) →
      (∀ i, 0 < i → i < N → c i ≠ "") →
      ListSites server fuel = Except.ok ((List.range N).map x, N)) ∧
    (∀ (server : String → Except String GoalsPage) (N fuel : Nat)
       (c : Nat → String) (x : Nat → Goal),
      1 ≤ N → N ≤ fuel →
      (∀ i, i < N → server (if i = 0 then "" else c i) =
          Except.ok ⟨[x i], if i + 1 = N then "" else c (i + 1)⟩) →
      (∀ i, 0 < i → i < N → c i ≠ "") →
      ListGoals server fuel = Except.ok ((List.range N).map x, N)) := by
  constructor
  · intro server N fuel c x hN hfuel H1 H2
    have h := listSitesLoop_pages server N c x H1 H2 fuel 0 [] 0 (by omega) (by omega)
    rw [if_pos rfl] at h
    unfold ListSites
    rw [h]
    simp [List.range_eq_range']
  · intro server N fuel c x hN hfuel H1 H2
    have h := listGoalsLoop_pages server N c x H1 H2 fuel 0 [] 0 (by omega) (by omega)
    rw [if_pos rfl] at h
    unfold ListGoals
    rw [h]
    simp [List.range_eq_range']

/-- Two-page site server for the C5 witness. -/
def sitesServerTwo : String → Except String SitesPage := fun a =>
  if a = "" then Except.ok ⟨[⟨"s1", "one.example.com", "", "UTC"⟩], "cursor1"⟩
  else if a = "cursor1" then Except.ok ⟨[⟨"s2", "two.example.com", "", "UTC"⟩], ""⟩
  else Except.error "unexpected cursor"

/-- Two-page goal server for the C5 witness. -/
def goalsServerTwo : String → Except String GoalsPage := fun a =>
  if a = "" then Except.ok ⟨[⟨"g1", "event", "Signup", ""⟩], "cursor1"⟩
  else if a = "cursor1" then Except.ok ⟨[⟨"g2", "page", "", "/checkout"⟩], ""⟩
  else Except.error "unexpected cursor"

/-- Item function of the two-page site server. -/
def siteAt : Nat → Site := fun i =>
  if i = 0 then ⟨"s1", "one.example.com", "", "UTC"⟩ else ⟨"s2", "two.example.com", "", "UTC"⟩

/-- Item function of the two-page goal server. -/
def goalAt : Nat → Goal := fun i =>
  if i = 0 then ⟨"g1", "event", "Signup", ""⟩ else ⟨"g2", "page", "", "/checkout"⟩

/-- Cursor function of the two-page servers. -/
def cursorAt : Nat → String := fun i => if i = 1 then "cursor1" else ""

/-- C5 witness: both paginating lists drain the two-page servers in two
requests. -/
theorem C5_pagination_completeness_witness :
    ListSites sitesServerTwo 2 =
      Except.ok ([⟨"s1", "one.example.com", "", "UTC"⟩,
                  ⟨"s2", "two.example.com", "", "UTC"⟩], 2) ∧
    ListGoals goalsServerTwo 2 =
      Except.ok ([⟨"g1", "event", "Signup", ""⟩,
                  ⟨"g2", "page", "", "/checkout"⟩], 2) :=
  ⟨(C5_pagination_completeness.1 sitesServerTwo 2 2 cursorAt siteAt
      (by omega) (by omega)
      (by intro i hi; interval_cases i <;> rfl)
      (by intro i h1 h2; have h : i = 1 := by omega
          subst h; decide)).trans (by rfl),
   (C5_pagination_completeness.2 goalsServerTwo 2 2 cursorAt goalAt
      (by omega) (by omega)
      (by intro i hi; interval_cases i <;> rfl)
      (by intro i h1 h2; have h : i = 1 := by omega
          subst h; decide)).trans (by rfl)⟩

end Plausible2
